import Mathlib

/-!
Verification of the correlation-based message bridge of `poc-microservice`:
the Kafka consumer service (`services/consumer`), its SOAP client
(`services/consumer/clients/soapclient`), and the KYC SOAP backend
(`services/providers/kyc`).  Go structs become Lean structures, the Go
`(value, error)` convention becomes `Except String`, `float64` risk values
(which the bridge only ever copies, never computes with) become `ℚ`, and the
backend HTTP exchange is modelled at the level the SOAP client can observe:
a transport failure or an HTTP status code plus a response body.
-/

set_option autoImplicit false

namespace PocMicroservice

/-- `models.UserData` (services/consumer/models/models.go): the KYC subject
record carried as the Kafka message payload and inside SOAP envelopes.
Fields: `ClientID`, `Risk` (Go `float64`, modelled as `ℚ`), `Status`,
`Message`. -/
structure UserData where
  clientID : String
  risk : ℚ
  status : String
  message : String
deriving Repr, DecidableEq

/-- The Go zero value of `models.UserData`. -/
def zeroUserData : UserData := ⟨"", 0, "", ""⟩

/-- `models.KafkaMessage` (services/consumer/models/models.go): the decoded
inbound queue envelope `{type, correlationId, clientId, userData}`. -/
structure KafkaMessage where
  type : String
  correlationID : String
  clientID : String
  userData : UserData
deriving Repr, DecidableEq

/-- The body of a backend HTTP response as the SOAP client observes it after
`io.ReadAll` and `xml.Unmarshal` (soapclient, src/unnamed/part_017). -/
inductive SOAPBody where
  /-- `io.ReadAll(resp.Body)` fails with this error text. -/
  | readFailure (msg : String)
  /-- bytes that `xml.Unmarshal` rejects, carrying the Go error text. -/
  | malformed (msg : String)
  /-- bytes parsing as `models.StandardKYCResponseEnvelope`:
  envelope-level `Status`, `Message` and the optional inner `UserData`. -/
  | standard (status message : String) (userData : Option UserData)
  /-- bytes parsing as `models.DeleteKYCResponseEnvelope`:
  `Status` and `Message` only. -/
  | deleteBody (status message : String)
deriving Repr, DecidableEq

/-- The outcome of one synchronous HTTP exchange with the backend. -/
inductive BackendResponse where
  /-- `http.Client.Do` returned an error (network failure, client timeout). -/
  | transportFailure (msg : String)
  /-- an HTTP response with this status code and body. -/
  | http (code : Nat) (body : SOAPBody)
deriving Repr, DecidableEq

/-- One backend call as serialized by the SOAP client's fixed request
templates.  The Create/Update templates interpolate only `ClientID` and
`Risk` of the outgoing `UserData` (part_017, `CreateKYC`/`UpdateKYC`
templates), so only those two fields reach the wire. -/
inductive SOAPRequest where
  | kycQuery (clientID : String)
  | createKYC (clientID : String) (risk : ℚ)
  | updateKYC (clientID : String) (risk : ℚ)
  | deleteKYC (clientID : String)
deriving Repr, DecidableEq

/-- The backend as the SOAP client sees it: one response per issued request. -/
abbrev Backend := SOAPRequest → BackendResponse

/-- `doSOAPRequest` (part_017 lines 32-59): issue the POST, fail on transport
error, fail on any status other than 200 OK with the status code in the error
text, fail if the body cannot be read, otherwise hand the raw body back. -/
def doSOAPRequest (resp : BackendResponse) : Except String SOAPBody :=
  match resp with
  | .transportFailure e => .error ("failed to call SOAP service: " ++ e)
  | .http code body =>
      if code ≠ 200 then
        .error ("SOAP service returned non-OK status: " ++ toString code)
      else
        match body with
        | .readFailure e => .error ("failed to read SOAP response body: " ++ e)
        | b => .ok b

/-- `xml.Unmarshal` of a response body into `StandardKYCResponseEnvelope`.
A delete-shaped body parses without error but leaves every field at its zero
value, because Go XML decoding silently ignores unmatched elements.
(`readFailure` never reaches a parse: `doSOAPRequest` already failed.) -/
def parseStandard : SOAPBody → Except String (String × String × Option UserData)
  | .malformed e => .error e
  | .standard s m u => .ok (s, m, u)
  | .deleteBody _ _ => .ok ("", "", none)
  | .readFailure _ => .ok ("", "", none)

/-- `xml.Unmarshal` of a response body into `DeleteKYCResponseEnvelope`;
a standard-shaped body parses to zero values, as above. -/
def parseDelete : SOAPBody → Except String (String × String)
  | .malformed e => .error e
  | .deleteBody s m => .ok (s, m)
  | .standard _ _ _ => .ok ("", "")
  | .readFailure _ => .ok ("", "")

/-- `SOAPClient.ReadKYC` (part_017 lines 62-107): issue a `KYCQuery`, take
envelope `Status`/`Message`, copy `ClientID` and `Risk` from the inner
`UserData` when present; when absent and the status is `"Error"`, fall back
to the requested client id. -/
def ReadKYC (backend : Backend) (clientID : String) : Except String UserData :=
  match doSOAPRequest (backend (.kycQuery clientID)) with
  | .error e => .error e
  | .ok body =>
    match parseStandard body with
    | .error e => .error ("failed to parse SOAP response: " ++ e)
    | .ok (s, m, u) =>
      match u with
      | some inner => .ok ⟨inner.clientID, inner.risk, s, m⟩
      | none =>
          if s = "Error" then .ok ⟨clientID, 0, s, m⟩
          else .ok ⟨"", 0, s, m⟩

/-- `SOAPClient.CreateKYC` (part_017 lines 110-150): issue a `CreateKYC`,
require the inner `UserData`, and overwrite its status and message with the
envelope-level ones. -/
def CreateKYC (backend : Backend) (userData : UserData) : Except String UserData :=
  match doSOAPRequest (backend (.createKYC userData.clientID userData.risk)) with
  | .error e => .error e
  | .ok body =>
    match parseStandard body with
    | .error e => .error ("failed to parse SOAP response: " ++ e)
    | .ok (s, m, u) =>
      match u with
      | none => .error "no UserData found in KYC Create response"
      | some inner => .ok { inner with status := s, message := m }

/-- `SOAPClient.UpdateKYC` (part_017 lines 153-191): same shape as Create. -/
def UpdateKYC (backend : Backend) (userData : UserData) : Except String UserData :=
  match doSOAPRequest (backend (.updateKYC userData.clientID userData.risk)) with
  | .error e => .error e
  | .ok body =>
    match parseStandard body with
    | .error e => .error ("failed to parse SOAP response: " ++ e)
    | .ok (s, m, u) =>
      match u with
      | none => .error "no UserData found in KYC Update response"
      | some inner => .ok { inner with status := s, message := m }

/-- `SOAPClient.DeleteKYC` (part_017 lines 194-221): issue a `DeleteKYC` and
return only the envelope `Message`. -/
def DeleteKYC (backend : Backend) (clientID : String) : Except String String :=
  match doSOAPRequest (backend (.deleteKYC clientID)) with
  | .error e => .error e
  | .ok body =>
    match parseDelete body with
    | .error e => .error ("failed to parse SOAP response: " ++ e)
    | .ok (_, m) => .ok m

/-- `producer.KafkaResponseTopic` (producer.go). -/
def KafkaResponseTopic : String := "Output"

/-- `consumer.KafkaReceiveTopic` (consumer client, part_015). -/
def KafkaReceiveTopic : String := "Income"

/-- The `switch kafkaMsg.Type` of the dispatch loop (part_012 main,
lines 91-124): route the decoded message to the matching SOAP call; for
`DELETE` synthesize a `UserData` from the confirmation message; any other
type is an error without any backend call.  Go's `switch` on a string is a
sequence of equality tests, embedded as an `if` chain. -/
def executeOperation (backend : Backend) (m : KafkaMessage) : Except String UserData :=
  if m.type = "READ" then
    ReadKYC backend m.clientID
  else if m.type = "CREATE" then
    CreateKYC backend
      (if m.userData.clientID = "" then { m.userData with clientID := m.clientID } else m.userData)
  else if m.type = "UPDATE" then
    UpdateKYC backend
      (if m.userData.clientID = "" then { m.userData with clientID := m.clientID } else m.userData)
  else if m.type = "DELETE" then
    match DeleteKYC backend m.clientID with
    | .error e => .error e
    | .ok dm => .ok ⟨m.clientID, 0, "Success", dm⟩
  else
    .error ("unknown Kafka message type: " ++ m.type)

/-- A message handed to `producer.Produce` (part_012 lines 140 and 160):
topic, JSON-marshalled entity (kept structured, since marshalling a
`UserData` made of these fields cannot fail), and the `correlationId`
header value. -/
structure ProducedMessage where
  topic : String
  value : UserData
  correlationHeader : String
deriving Repr, DecidableEq

/-- The error entity built at part_012 lines 129-133. -/
def errorEntity (m : KafkaMessage) (e : String) : UserData :=
  ⟨m.clientID, 0, "Error", "Failed to perform " ++ m.type ++ " operation: " ++ e⟩

/-- Processing of one decoded message (part_012 lines 87-167): run the
operation; on failure publish the error entity, on success publish the
result entity; either way the `correlationId` header is the decoded
message's correlation id, and exactly one produce is attempted. -/
def processMessage (backend : Backend) (m : KafkaMessage) : ProducedMessage :=
  match executeOperation backend m with
  | .error e => ⟨KafkaResponseTopic, errorEntity m e, m.correlationID⟩
  | .ok entity => ⟨KafkaResponseTopic, entity, m.correlationID⟩

/-- A JSON value, for the `encoding/json` decoding of inbound messages. -/
inductive Json where
  | str (s : String)
  | num (q : ℚ)
  | bool (b : Bool)
  | null
  | arr (elems : List Json)
  | obj (fields : List (String × Json))

/-- ASCII lower-casing of a string, character by character (the fragment of
Go's case folding that the struct tags here exercise). -/
def lowerAscii (s : String) : String := ⟨s.data.map Char.toLower⟩

/-- Go `encoding/json` field resolution for a struct field with the given
tag: object keys are scanned in order, a key matches on exact or
case-insensitive tag equality, and the last matching key wins. -/
def jsonField (fields : List (String × Json)) (tag : String) : Option Json :=
  fields.foldl
    (fun acc kv => if kv.1 = tag ∨ lowerAscii kv.1 = lowerAscii tag then some kv.2 else acc)
    none

/-- Decode a string-typed struct field: an absent key or a JSON `null`
leaves the Go zero value `""`; a non-string value is a type error
(`json.Unmarshal` reports it, and the caller drops the message). -/
def decodeStringField (fields : List (String × Json)) (tag : String) : Option String :=
  match jsonField fields tag with
  | none => some ""
  | some .null => some ""
  | some (.str s) => some s
  | some _ => none

/-- Decode the `float64`-typed `risk` field, same conventions. -/
def decodeRatField (fields : List (String × Json)) (tag : String) : Option ℚ :=
  match jsonField fields tag with
  | none => some 0
  | some .null => some 0
  | some (.num q) => some q
  | some _ => none

/-- Decode a JSON value into `models.UserData`. -/
def decodeUserData : Json → Option UserData
  | .null => some zeroUserData
  | .obj fs => do
      let cl ← decodeStringField fs "clientId"
      let r ← decodeRatField fs "risk"
      let s ← decodeStringField fs "status"
      let m ← decodeStringField fs "message"
      pure ⟨cl, r, s, m⟩
  | _ => none

/-- Decode a JSON value into `models.KafkaMessage`
(`json.Unmarshal(msg.Value, &kafkaMsg)`, part_012 line 82): the input must
be an object; absent fields keep their zero values. -/
def decodeKafkaMessage : Json → Option KafkaMessage
  | .obj fs => do
      let t ← decodeStringField fs "type"
      let c ← decodeStringField fs "correlationId"
      let cl ← decodeStringField fs "clientId"
      let ud ←
        match jsonField fs "userData" with
        | none => some zeroUserData
        | some v => decodeUserData v
      pure ⟨t, c, cl, ud⟩
  | _ => none

/-- The raw value of a consumed Kafka message: either bytes that are not
JSON at all, or a parsed JSON value. -/
inductive InboundValue where
  | notJson (bytes : String)
  | jsonVal (j : Json)

/-- `json.Unmarshal` of an inbound value into `KafkaMessage`. -/
def decodeInbound : InboundValue → Option KafkaMessage
  | .notJson _ => none
  | .jsonVal j => decodeKafkaMessage j

/-- librdkafka's `ErrTimedOut` code, the one poll error the loop treats as
silence (part_012 line 168). -/
def errTimedOut : Int := -185

/-- What one `consumer.ReadMessage(time.Second)` poll can yield: a message
with a raw value, or a `kafka.Error` with some error code. -/
inductive PollOutcome where
  | message (value : InboundValue)
  | pollFailure (code : Int)

/-- What one iteration of the dispatch loop does. -/
structure StepResult where
  published : List ProducedMessage
  loggedConsumerError : Bool
  continues : Bool
deriving Repr, DecidableEq

/-- One iteration of the `for` loop of part_012 lines 76-171: a message that
fails to decode is dropped (`continue`); a decoded message is processed and
its single result published; a poll failure is logged unless it is
`ErrTimedOut`.  No branch leaves the loop. -/
def step (backend : Backend) (p : PollOutcome) : StepResult :=
  match p with
  | .message v =>
      match decodeInbound v with
      | none => ⟨[], false, true⟩
      | some m => ⟨[processMessage backend m], false, true⟩
  | .pollFailure code => ⟨[], code != errTimedOut, true⟩

/-- The dispatch loop over a trace of poll outcomes: everything published,
in order. -/
def runLoop (backend : Backend) : List PollOutcome → List ProducedMessage
  | [] => []
  | p :: rest => (step backend p).published ++ runLoop backend rest

/-! ## The KYC SOAP backend (services/providers/kyc) -/

/-- The in-memory user store (`InMemoryRepo.users`, repository.go),
modelled as an association list with at most one entry per client id. -/
abbrev Repo := List (String × UserData)

/-- Map lookup (`repo.users[clientID]`). -/
def repoFind (repo : Repo) (clientID : String) : Option UserData :=
  match repo with
  | [] => none
  | (k, v) :: rest => if k = clientID then some v else repoFind rest clientID

/-- Map write (`repo.users[clientID] = userData`). -/
def repoSet (repo : Repo) (clientID : String) (u : UserData) : Repo :=
  match repo with
  | [] => [(clientID, u)]
  | (k, v) :: rest =>
      if k = clientID then (clientID, u) :: rest else (k, v) :: repoSet rest clientID u

/-- Map delete (`delete(repo.users, clientID)`). -/
def repoDelete (repo : Repo) (clientID : String) : Repo :=
  repo.filter (fun kv => kv.1 != clientID)

/-- The repository's error text for a missing user (repository.go). -/
def notFoundMsg (clientID : String) : String :=
  "user with ClientID '" ++ clientID ++ "' not found"

/-- The repository's error text for a duplicate create (repository.go). -/
def alreadyExistsMsg (clientID : String) : String :=
  "user with ClientID '" ++ clientID ++ "' already exists"

/-- The simulated-response overrides of `InMemoryRepo.actions`
(repository.go lines 10-17). -/
inductive Action where
  | timeout
  | internalError
  | notFound
deriving Repr, DecidableEq

/-- `soapHandler` (services/providers/kyc/main.go lines 31-251) on an
already-parsed request (the bridge's fixed templates always parse), paired
with the repository it leaves behind.  Action overrides apply only to
`KYCQuery`; the `Timeout` and `InternalError` overrides answer through
`http.Error` with a plain-text (non-XML) body.  The `Create`/`Update`
request's `UserData` holds only the client id and risk that the bridge's
template put on the wire, the other fields being XML zero values. -/
def soapHandler (repo : Repo) (actions : String → Option Action) :
    SOAPRequest → (Nat × SOAPBody) × Repo
  | .kycQuery cl =>
      match actions cl with
      | some .timeout => ((408, .malformed "Timeout"), repo)
      | some .internalError => ((500, .malformed "Internal Server Error (simulated)"), repo)
      | some .notFound =>
          ((404, .standard "Error"
            ("User with ClientID '" ++ cl ++ "' not found (simulated)") none), repo)
      | none =>
          match repoFind repo cl with
          | some u => ((200, .standard "Success" "User data retrieved" (some u)), repo)
          | none => ((404, .standard "Error" (notFoundMsg cl) none), repo)
  | .createKYC cl risk =>
      match repoFind repo cl with
      | some _ => ((409, .standard "Error" (alreadyExistsMsg cl) none), repo)
      | none =>
          ((200, .standard "Success" "User created" (some ⟨cl, risk, "", ""⟩)),
            repoSet repo cl ⟨cl, risk, "", ""⟩)
  | .updateKYC cl risk =>
      match repoFind repo cl with
      | some _ =>
          ((200, .standard "Success" "User updated" (some ⟨cl, risk, "", ""⟩)),
            repoSet repo cl ⟨cl, risk, "", ""⟩)
      | none => ((404, .standard "Error" (notFoundMsg cl) none), repo)
  | .deleteKYC cl =>
      match repoFind repo cl with
      | some _ => ((200, .deleteBody "Success" "User deleted"), repoDelete repo cl)
      | none => ((404, .deleteBody "Error" (notFoundMsg cl)), repo)

/-- The KYC service as a `Backend` for a single bridge message (each known
operation kind issues exactly one call, so the pre-call repository is the
one the call observes). -/
def kycBackend (repo : Repo) (actions : String → Option Action) : Backend :=
  fun req =>
    let r := (soapHandler repo actions req).1
    BackendResponse.http r.1 r.2

/-- No simulated-action overrides installed. -/
def noActions : String → Option Action := fun _ => none

/-! ## Readiness gate (part_012 lines 175-226) -/

/-- The shape shared by `waitForKafkaConnection` and `waitForSoapService`:
poll on a fixed interval until the deadline, each attempt bounded (or not)
by its own timeout. -/
structure ProbeLoopConfig where
  overallTimeoutSeconds : Nat
  retryIntervalSeconds : Nat
  /-- `none` when nothing bounds a single probe attempt. -/
  attemptTimeoutSeconds : Option Nat
deriving Repr, DecidableEq

/-- `waitForKafkaConnection` (part_012 lines 175-196): 1 s retry sleep, and
each `ClusterID` probe runs under `context.WithTimeout(…, 5*time.Second)`. -/
def waitForKafkaConnectionConfig (timeoutSeconds : Nat) : ProbeLoopConfig :=
  ⟨timeoutSeconds, 1, some 5⟩

/-- `waitForSoapService` (part_012 lines 199-226): 1 s retry sleep, and the
HEAD probe is issued through `http.DefaultClient`, whose zero `Timeout`
means the attempt has no bound of its own. -/
def waitForSoapServiceConfig (timeoutSeconds : Nat) : ProbeLoopConfig :=
  ⟨timeoutSeconds, 1, none⟩

/-- Substring test, for stating what an error message does or does not
contain. -/
def containsSub (s pat : String) : Bool :=
  (List.range (s.length + 1)).any (fun i => pat.data.isPrefixOf (s.data.drop i))

/-! ## Concrete fixtures used by witnesses and counterexamples -/

/-- A JSON object field that is present or absent. -/
def optStrField (tag : String) : Option String → List (String × Json)
  | none => []
  | some s => [(tag, Json.str s)]

/-- A backend whose every call fails at the transport level. -/
def downBackend : Backend := fun _ => .transportFailure "connection refused"

/-- The KYC backend over an empty repository. -/
def emptyKycBackend : Backend := kycBackend [] noActions

/-- A stored subject record. -/
def clientX : UserData := ⟨"clientX", 1/2, "Approved", "ok"⟩

/-- A repository holding exactly `clientX`. -/
def repoWithClientX : Repo := [("clientX", clientX)]

/-- A decoded read request. -/
def mReadC1 : KafkaMessage := ⟨"READ", "c1", "clientA123", zeroUserData⟩

/-- A decoded read request for a subject the backend does not hold. -/
def mReadGhost : KafkaMessage := ⟨"READ", "c2", "ghost", zeroUserData⟩

/-- A decoded delete request for `clientX`. -/
def mDeleteC3 : KafkaMessage := ⟨"DELETE", "c3", "clientX", zeroUserData⟩

/-- A decoded message of an unsupported operation kind. -/
def mFoo : KafkaMessage := ⟨"FOO", "c9", "x", zeroUserData⟩

/-! ## Helper lemmas -/

theorem processMessage_correlationHeader (backend : Backend) (m : KafkaMessage) :
    (processMessage backend m).correlationHeader = m.correlationID := by
  cases h : executeOperation backend m <;> simp [processMessage, h]

theorem processMessage_error (backend : Backend) (m : KafkaMessage) (e : String)
    (h : executeOperation backend m = .error e) :
    processMessage backend m = ⟨KafkaResponseTopic, errorEntity m e, m.correlationID⟩ := by
  simp [processMessage, h]

theorem executeOperation_unknown (backend : Backend) (m : KafkaMessage)
    (h1 : m.type ≠ "READ") (h2 : m.type ≠ "CREATE")
    (h3 : m.type ≠ "UPDATE") (h4 : m.type ≠ "DELETE") :
    executeOperation backend m = .error ("unknown Kafka message type: " ++ m.type) := by
  simp [executeOperation, h1, h2, h3, h4]

/-! ## Claims -/

/-- C1: for every inbound queue message that decodes successfully into an
`OperationRequest`, exactly one outbound message is published for it
(whether the operation succeeded or failed), and its `correlationId`
header equals the `correlationId` field of the decoded request. -/
theorem correlation_header_preserved (backend : Backend) (v : InboundValue)
    (m : KafkaMessage) (h : decodeInbound v = some m) :
    (step backend (.message v)).published = [processMessage backend m] ∧
    (processMessage backend m).correlationHeader = m.correlationID := by
  exact ⟨by simp [step, h], processMessage_correlationHeader backend m⟩

theorem correlation_header_preserved_witness :
    (step downBackend (.message (.jsonVal
        (Json.obj [("type", .str "READ"), ("correlationId", .str "c1")])))).published
      = [processMessage downBackend ⟨"READ", "c1", "", zeroUserData⟩] ∧
    (processMessage downBackend ⟨"READ", "c1", "", zeroUserData⟩).correlationHeader = "c1" :=
  correlation_header_preserved downBackend
    (.jsonVal (Json.obj [("type", .str "READ"), ("correlationId", .str "c1")]))
    ⟨"READ", "c1", "", zeroUserData⟩ (by rfl)

/-- C2: every failure of the backend adapter (transport error, non-success
backend status, malformed backend response, unknown operation kind, all of
which surface as `executeOperation … = .error e`) is converted into the
published error entity: status `Error` and the descriptive message
`"Failed to perform <type> operation: <error>"`.  `processMessage` is a
total function, so no failure escapes processing without this result. -/
theorem adapter_failure_published_as_error (backend : Backend) (m : KafkaMessage)
    (e : String) (h : executeOperation backend m = .error e) :
    processMessage backend m = ⟨KafkaResponseTopic, errorEntity m e, m.correlationID⟩ ∧
    (errorEntity m e).status = "Error" ∧
    (errorEntity m e).message = "Failed to perform " ++ m.type ++ " operation: " ++ e :=
  ⟨processMessage_error backend m e h, rfl, rfl⟩

theorem adapter_failure_published_as_error_witness :
    processMessage downBackend mReadC1 =
      ⟨KafkaResponseTopic,
        errorEntity mReadC1 "failed to call SOAP service: connection refused",
        "c1"⟩ ∧
    (errorEntity mReadC1 "failed to call SOAP service: connection refused").status = "Error" ∧
    (errorEntity mReadC1 "failed to call SOAP service: connection refused").message
      = "Failed to perform " ++ mReadC1.type ++ " operation: "
          ++ "failed to call SOAP service: connection refused" :=
  adapter_failure_published_as_error downBackend mReadC1
    "failed to call SOAP service: connection refused" (by rfl)

/-- C3: a decoded message whose operation kind is none of `READ`, `CREATE`,
`UPDATE`, `DELETE` never invokes the backend (the outcome is the same for
any two backends) and the published result has status `Error`. -/
theorem unknown_kind_skips_backend (b₁ b₂ : Backend) (m : KafkaMessage)
    (h1 : m.type ≠ "READ") (h2 : m.type ≠ "CREATE")
    (h3 : m.type ≠ "UPDATE") (h4 : m.type ≠ "DELETE") :
    executeOperation b₁ m = executeOperation b₂ m ∧
    executeOperation b₁ m = .error ("unknown Kafka message type: " ++ m.type) ∧
    (processMessage b₁ m).value.status = "Error" := by
  have e1 := executeOperation_unknown b₁ m h1 h2 h3 h4
  have e2 := executeOperation_unknown b₂ m h1 h2 h3 h4
  refine ⟨e1.trans e2.symm, e1, ?_⟩
  rw [processMessage_error b₁ m _ e1]
  rfl

theorem unknown_kind_skips_backend_witness :
    executeOperation downBackend mFoo = executeOperation emptyKycBackend mFoo ∧
    executeOperation downBackend mFoo = .error ("unknown Kafka message type: " ++ mFoo.type) ∧
    (processMessage downBackend mFoo).value.status = "Error" :=
  unknown_kind_skips_backend downBackend emptyKycBackend mFoo
    (by decide) (by decide) (by decide) (by decide)

/-- C4, counterexample: a `READ` for the unknown subject `"ghost"` against
the KYC backend does publish an `Error` result, but the KYC service answers
"not found" with HTTP 404, which `doSOAPRequest` turns into a generic
non-OK-status failure — so the published message neither embeds the subject
id as the claim intends nor contains `"not found"`. -/
theorem read_not_found_counterexample :
    (processMessage emptyKycBackend mReadGhost).value.status = "Error" ∧
    (processMessage emptyKycBackend mReadGhost).value.message
      = "Failed to perform READ operation: SOAP service returned non-OK status: 404" ∧
    containsSub (processMessage emptyKycBackend mReadGhost).value.message "not found" = false :=
  ⟨rfl, rfl, by decide⟩

/-- C4, amended: for every `READ` request whose subject id is unknown to the
KYC backend (no simulated action installed), the published result has status
`Error` and its message reports the backend's non-OK HTTP status 404; the
backend's "not found" text is not propagated, because the bridge treats the
404 answer as a transport-level failure before parsing the body. -/
theorem read_unknown_subject_yields_404_error (repo : Repo) (cor cid : String)
    (ud : UserData) (h : repoFind repo cid = none) :
    processMessage (kycBackend repo noActions) ⟨"READ", cor, cid, ud⟩ =
      ⟨KafkaResponseTopic,
        ⟨cid, 0, "Error",
          "Failed to perform READ operation: SOAP service returned non-OK status: 404"⟩,
        cor⟩ := by
  have hb : kycBackend repo noActions (.kycQuery cid)
      = .http 404 (.standard "Error" (notFoundMsg cid) none) := by
    simp [kycBackend, soapHandler, noActions, h]
  unfold processMessage executeOperation ReadKYC
  rw [hb]
  rfl

theorem read_unknown_subject_yields_404_error_witness :
    repoFind [] "ghost" = none ∧
    processMessage (kycBackend [] noActions) ⟨"READ", "c2", "ghost", zeroUserData⟩ =
      ⟨KafkaResponseTopic,
        ⟨"ghost", 0, "Error",
          "Failed to perform READ operation: SOAP service returned non-OK status: 404"⟩,
        "c2"⟩ :=
  ⟨rfl, read_unknown_subject_yields_404_error [] "c2" "ghost" zeroUserData (by rfl)⟩

/-- C5, counterexample: `doSOAPRequest` accepts only status 200, not the
whole 2xx class — a 201 response carrying a success body is classified as an
`Error` outcome with the status code in the message, refuting the claim
that any 2xx response with a success body yields a Success result. -/
theorem backend_2xx_counterexample :
    (200 ≤ 201 ∧ 201 < 300) ∧
    ReadKYC (fun _ => .http 201 (.standard "Success" "User data retrieved"
        (some ⟨"clientA", 0, "", ""⟩))) "clientA"
      = .error "SOAP service returned non-OK status: 201" :=
  ⟨by decide, rfl⟩

/-- C5, amended: the adapter classifies backend responses against status 200
exactly, not the 2xx class: any status other than 200 yields an error whose
message carries the status code (for Read and Create alike); a 200 response
whose standard envelope carries a business error with no subject data yields,
for Read, a status-`Error` result with the backend's message unmodified; and
a 200 response with an inner `UserData` yields a result with the subject
fields copied from the payload and the envelope's status and message. -/
theorem backend_response_classification :
    (∀ (cid : String) (code : ℕ) (body : SOAPBody), code ≠ 200 →
      ReadKYC (fun _ => .http code body) cid
        = .error ("SOAP service returned non-OK status: " ++ toString code)) ∧
    (∀ (cid s m : String) (inner : UserData),
      ReadKYC (fun _ => .http 200 (.standard s m (some inner))) cid
        = .ok ⟨inner.clientID, inner.risk, s, m⟩) ∧
    (∀ (cid m : String),
      ReadKYC (fun _ => .http 200 (.standard "Error" m none)) cid
        = .ok ⟨cid, 0, "Error", m⟩) ∧
    (∀ (ud : UserData) (code : ℕ) (body : SOAPBody), code ≠ 200 →
      CreateKYC (fun _ => .http code body) ud
        = .error ("SOAP service returned non-OK status: " ++ toString code)) ∧
    (∀ (ud : UserData) (s m : String) (inner : UserData),
      CreateKYC (fun _ => .http 200 (.standard s m (some inner))) ud
        = .ok { inner with status := s, message := m }) := by
  refine ⟨?_, ?_, ?_, ?_, ?_⟩
  · intro cid code body h
    simp [ReadKYC, doSOAPRequest, h]
  · intro cid s m inner; rfl
  · intro cid m; rfl
  · intro ud code body h
    simp [CreateKYC, doSOAPRequest, h]
  · intro ud s m inner; rfl

theorem backend_response_classification_witness :
    ReadKYC (fun _ => .http 500 (.malformed "boom")) "c"
      = .error ("SOAP service returned non-OK status: " ++ toString 500) ∧
    ReadKYC (fun _ => .http 200 (.standard "Error" "oops" none)) "c"
      = .ok ⟨"c", 0, "Error", "oops"⟩ :=
  ⟨backend_response_classification.1 "c" 500 (.malformed "boom") (by decide),
   backend_response_classification.2.2.1 "c" "oops"⟩

/-- C6: the result published for a `DELETE` request carries no payload
regardless of its status — the bridge builds both the success entity
(part_012 lines 112-120) and the error entity with the `Risk` field, the
only payload datum beside the client id, at its zero value — and on success
it has status `Success` with the message taken from the backend's
confirmation. -/
theorem delete_result_has_no_payload (backend : Backend) (m : KafkaMessage)
    (dm : String) (h : m.type = "DELETE") :
    (processMessage backend m).value.risk = 0 ∧
    (DeleteKYC backend m.clientID = .ok dm →
      processMessage backend m
        = ⟨KafkaResponseTopic, ⟨m.clientID, 0, "Success", dm⟩, m.correlationID⟩) := by
  have hexec : executeOperation backend m =
      (match DeleteKYC backend m.clientID with
       | .error e => .error e
       | .ok s => .ok ⟨m.clientID, 0, "Success", s⟩) := by
    simp [executeOperation, h]
  constructor
  · cases hdel : DeleteKYC backend m.clientID <;>
      simp [processMessage, hexec, hdel, errorEntity]
  · intro hdm
    simp [processMessage, hexec, hdm]

theorem delete_result_has_no_payload_witness :
    (processMessage (kycBackend repoWithClientX noActions) mDeleteC3).value.risk = 0 ∧
    processMessage (kycBackend repoWithClientX noActions) mDeleteC3
      = ⟨KafkaResponseTopic, ⟨"clientX", 0, "Success", "User deleted"⟩, "c3"⟩ :=
  ⟨(delete_result_has_no_payload (kycBackend repoWithClientX noActions) mDeleteC3
      "User deleted" (by rfl)).1,
   (delete_result_has_no_payload (kycBackend repoWithClientX noActions) mDeleteC3
      "User deleted" (by rfl)).2 (by rfl)⟩

/-- C7: an inbound message whose bytes fail to decode as the JSON envelope
publishes nothing — it contributes no outbound message and the loop
continues with the remaining poll outcomes unchanged. -/
theorem malformed_message_dropped (backend : Backend) (v : InboundValue)
    (rest : List PollOutcome) (h : decodeInbound v = none) :
    (step backend (.message v)).published = [] ∧
    runLoop backend (.message v :: rest) = runLoop backend rest := by
  constructor <;> simp [runLoop, step, h]

theorem malformed_message_dropped_witness :
    (step emptyKycBackend (.message (.notJson "this is not json"))).published = [] ∧
    runLoop emptyKycBackend (.message (.notJson "this is not json") :: [.pollFailure (-1)])
      = runLoop emptyKycBackend [.pollFailure (-1)] :=
  malformed_message_dropped emptyKycBackend (.notJson "this is not json")
    [.pollFailure (-1)] (by rfl)

/-- C8, counterexample: the backend HTTP probe of the readiness gate has no
per-attempt sub-timeout at all — `waitForSoapService` issues its HEAD probe
through `http.DefaultClient`, whose zero `Timeout` leaves the attempt
unbounded — refuting the claim that every individual probe attempt is
bounded by its own ≈5 s sub-timeout. -/
theorem readiness_probe_counterexample :
    (waitForSoapServiceConfig 60).attemptTimeoutSeconds = none ∧
    ¬ ∃ t, (waitForSoapServiceConfig 60).attemptTimeoutSeconds = some t :=
  ⟨rfl, by simp [waitForSoapServiceConfig]⟩

/-- C8, amended: only the broker metadata probe runs under its own 5-second
per-attempt timeout (`context.WithTimeout` around `ClusterID`); the backend
HTTP probe attempt has no bound of its own, so only a hung broker probe —
not a hung backend probe — is prevented from stalling the poll loop.  Both
loops retry on a 1-second interval. -/
theorem readiness_probe_timeouts (timeoutSeconds : ℕ) :
    (waitForKafkaConnectionConfig timeoutSeconds).attemptTimeoutSeconds = some 5 ∧
    (waitForSoapServiceConfig timeoutSeconds).attemptTimeoutSeconds = none ∧
    (waitForKafkaConnectionConfig timeoutSeconds).retryIntervalSeconds = 1 ∧
    (waitForSoapServiceConfig timeoutSeconds).retryIntervalSeconds = 1 :=
  ⟨rfl, rfl, rfl, rfl⟩

/-- C9: no single poll outcome stops the dispatch loop — every iteration
continues, every poll error (any error code) is handled by the fixed rule
"publish nothing, log unless the code is `ErrTimedOut`", and the loop
always proceeds to the remaining outcomes. -/
theorem loop_continues_on_every_outcome (backend : Backend) :
    (∀ p : PollOutcome, (step backend p).continues = true) ∧
    (∀ code : Int, step backend (.pollFailure code) = ⟨[], code != errTimedOut, true⟩) ∧
    (∀ (p : PollOutcome) (rest : List PollOutcome),
      runLoop backend (p :: rest) = (step backend p).published ++ runLoop backend rest) := by
  refine ⟨?_, fun code => rfl, fun p rest => rfl⟩
  intro p
  cases p with
  | message v => cases h : decodeInbound v <;> simp [step, h]
  | pollFailure code => simp [step]

/-- C10: a well-typed JSON object missing any of `type`, `correlationId`,
`clientId` still decodes (absent fields become empty strings), a missing or
unknown type is handled as an unknown operation kind, and the `Error` result
is published with a `correlationId` header equal to the possibly empty
correlation id — the non-empty-correlation-id invariant is never enforced. -/
theorem lenient_decode_unknown_type (backend : Backend) (t c cl : Option String)
    (h1 : t.getD "" ≠ "READ") (h2 : t.getD "" ≠ "CREATE")
    (h3 : t.getD "" ≠ "UPDATE") (h4 : t.getD "" ≠ "DELETE") :
    decodeKafkaMessage (Json.obj
        (optStrField "type" t ++ optStrField "correlationId" c ++ optStrField "clientId" cl))
      = some ⟨t.getD "", c.getD "", cl.getD "", zeroUserData⟩ ∧
    (step backend (.message (.jsonVal (Json.obj
        (optStrField "type" t ++ optStrField "correlationId" c
          ++ optStrField "clientId" cl))))).published
      = [processMessage backend ⟨t.getD "", c.getD "", cl.getD "", zeroUserData⟩] ∧
    (processMessage backend ⟨t.getD "", c.getD "", cl.getD "", zeroUserData⟩).value.status
      = "Error" ∧
    (processMessage backend ⟨t.getD "", c.getD "", cl.getD "", zeroUserData⟩).correlationHeader
      = c.getD "" := by
  have hdec : decodeKafkaMessage (Json.obj
      (optStrField "type" t ++ optStrField "correlationId" c ++ optStrField "clientId" cl))
      = some ⟨t.getD "", c.getD "", cl.getD "", zeroUserData⟩ := by
    cases t <;> cases c <;> cases cl <;> rfl
  have hexec := executeOperation_unknown backend
    ⟨t.getD "", c.getD "", cl.getD "", zeroUserData⟩ h1 h2 h3 h4
  refine ⟨hdec, ?_, ?_, processMessage_correlationHeader backend _⟩
  · simp only [step, decodeInbound]
    rw [hdec]
  · rw [processMessage_error backend _ _ hexec]
    rfl

theorem lenient_decode_unknown_type_witness :
    (Option.getD (α := String) none "" ≠ "READ") ∧
    decodeKafkaMessage (Json.obj []) = some ⟨"", "", "", zeroUserData⟩ ∧
    (processMessage emptyKycBackend ⟨"", "", "", zeroUserData⟩).value.status = "Error" ∧
    (processMessage emptyKycBackend ⟨"", "", "", zeroUserData⟩).correlationHeader = "" :=
  ⟨by decide,
   (lenient_decode_unknown_type emptyKycBackend none none none
      (by decide) (by decide) (by decide) (by decide)).1,
   (lenient_decode_unknown_type emptyKycBackend none none none
      (by decide) (by decide) (by decide) (by decide)).2.2.1,
   (lenient_decode_unknown_type emptyKycBackend none none none
      (by decide) (by decide) (by decide) (by decide)).2.2.2⟩

end PocMicroservice
